import Mathlib

/-!
Verification of the ACT api-bridge C++ demo clients (RESTClient / GRPCClient)
against their natural-language specification.

The embedding models, from the source under
`src/implementation/ledger/api-bridge/cpp-demo/`:

* the outcome discipline of `RESTClient::makeRequest` and
  `GRPCClient::makeRequest` (success body vs. thrown `std::runtime_error`);
* the request a client operation sends (HTTP method, endpoint, JSON body
  fields in construction order) and the result struct it parses;
* the public method signatures of both client classes (name, parameter
  types, return type), as declared in `RESTClient.h` / `GRPCClient.h`;
* `RESTClient::urlEncode`;
* the streaming worker / `stopStreaming` interaction of `GRPCClient`
  as a small interleaved transition system;
* the worker-thread lifecycle of `GRPCClient` at operation granularity.

C++ `double` score values are modelled as `Rat`: the clients never perform
arithmetic on scores, they only copy them between JSON and structs, so the
exact float semantics are irrelevant to every claim below.
-/

namespace ACTBridge

/-- A JSON scalar as the demo clients put into / read from request and
response bodies (nlohmann::json object fields). -/
inductive JValue
  | s (v : String)
  | i (v : Int)
  | b (v : Bool)
  | num (v : Rat)
deriving DecidableEq

/-- One network request as built by a client operation: HTTP method,
endpoint path, and the JSON body fields in construction order
(empty for GET requests). -/
structure NetRequest where
  method : String
  endpoint : String
  bodyFields : List (String × JValue)
deriving DecidableEq

/-- What the HTTP layer (httplib) hands back for one request:
either a connection-level failure with its error code, or a reply with a
status code, a raw body string, and the parse of that body into JSON
object fields (nlohmann json::parse). -/
inductive TransportReply
  | failed (errCode : Nat)
  | replied (status : Nat) (body : String) (fields : List (String × JValue))

/-- A thrown C++ `std::runtime_error`, identified by which `throw` site in
the source built its message:
`requestFailed e`  = RESTClient.cpp "HTTP request failed: " + e,
`httpError s b`    = RESTClient.cpp "HTTP error " + s + ": " + b,
`grpcRequestFailed e` = GRPCClient.cpp "gRPC request failed: " + e,
`grpcError s b`    = GRPCClient.cpp "gRPC error " + s + ": " + b. -/
inductive CppException
  | requestFailed (errCode : Nat)
  | httpError (status : Nat) (body : String)
  | grpcRequestFailed (errCode : Nat)
  | grpcError (status : Nat) (body : String)
deriving DecidableEq

/-- How one client call ends for its caller. `.ok` is a normal return,
`.taggedError` would be a returned, caller-inspectable error value (the
shape the spec asks for; no operation of the source produces it), and
`.thrown` is a raised C++ exception escaping the call. -/
inductive CallOutcome (α : Type)
  | ok (v : α)
  | taggedError (e : String)
  | thrown (e : CppException)
deriving DecidableEq

/-- `RESTClient::makeRequest` (RESTClient.cpp lines 676-707), given what the
HTTP layer returned: on connection failure it throws, on status ≠ 200 it
throws an error carrying the status and body, and only on status 200 it
returns the body. -/
def restMakeRequest (reply : TransportReply) : CallOutcome String :=
  match reply with
  | .failed e => .thrown (.requestFailed e)
  | .replied status body _ =>
      if status = 200 then .ok body else .thrown (.httpError status body)

/-- `GRPCClient::makeRequest` (GRPCClient.cpp lines 485-515): the demo
routes the call over HTTP to the gRPC gateway; same structure as the REST
side, with the gRPC-labelled exception messages. -/
def grpcMakeRequest (reply : TransportReply) : CallOutcome String :=
  match reply with
  | .failed e => .thrown (.grpcRequestFailed e)
  | .replied status body _ =>
      if status = 200 then .ok body else .thrown (.grpcError status body)

/-- nlohmann `j.value(key, stringDefault)` over parsed object fields. -/
def jStr (fields : List (String × JValue)) (key dflt : String) : String :=
  match fields.lookup key with
  | some (.s v) => v
  | _ => dflt

/-- nlohmann `j.value(key, numericDefault)` over parsed object fields. -/
def jNum (fields : List (String × JValue)) (key : String) (dflt : Rat) : Rat :=
  match fields.lookup key with
  | some (.num v) => v
  | _ => dflt

/-- Outcome of the uniform per-operation body of every REST client call:
`makeRequest` on the single request the operation builds, then
`json::parse` + field extraction on the 200 body. Mirrors
`RESTClient::makeRequest` exactly (throw on failure, throw on
status ≠ 200, parse on 200). -/
def restCallOutcome {α : Type} (req : NetRequest)
    (parse : List (String × JValue) → α)
    (http : NetRequest → TransportReply) : CallOutcome α :=
  match http req with
  | .failed e => .thrown (.requestFailed e)
  | .replied status body fields =>
      if status = 200 then .ok (parse fields)
      else .thrown (.httpError status body)

/-- A full REST client operation: it issues exactly the one request it
built (first component: the list of requests sent, in order) and maps the
reply through the `makeRequest` discipline. -/
def restCall {α : Type} (req : NetRequest)
    (parse : List (String × JValue) → α)
    (http : NetRequest → TransportReply) : List NetRequest × CallOutcome α :=
  ([req], restCallOutcome req parse http)

/-- Outcome half of a gRPC client operation, mirroring
`GRPCClient::makeRequest`. -/
def grpcCallOutcome {α : Type} (req : NetRequest)
    (parse : List (String × JValue) → α)
    (http : NetRequest → TransportReply) : CallOutcome α :=
  match http req with
  | .failed e => .thrown (.grpcRequestFailed e)
  | .replied status body fields =>
      if status = 200 then .ok (parse fields)
      else .thrown (.grpcError status body)

/-- A full gRPC client operation: one request, gRPC-labelled errors. -/
def grpcCall {α : Type} (req : NetRequest)
    (parse : List (String × JValue) → α)
    (http : NetRequest → TransportReply) : List NetRequest × CallOutcome α :=
  ([req], grpcCallOutcome req parse http)

/-- `PairingCompleteResult` (RESTClient.h lines 102-109). -/
structure PairingCompleteResult where
  lctId : String
  sessionKeys : String
  trustSummary : String
  txHash : String
  splitKeyA : String
  splitKeyB : String
deriving DecidableEq

/-- `TrustTensorResult` (RESTClient.h lines 111-116); `score` is a `double`
in the source, modelled as `Rat`. -/
structure TrustTensorResult where
  tensorId : String
  score : Rat
  status : String
  txHash : String
deriving DecidableEq

/-- The request `RESTClient::completePairing` builds (RESTClient.cpp
lines 494-507): POST /pairing/complete with these body fields in this
order. -/
def completePairingReq (creator challengeId componentAAuth componentBAuth
    sessionContext : String) : NetRequest :=
  { method := "POST"
    endpoint := "/pairing/complete"
    bodyFields :=
      [("creator", .s creator),
       ("challenge_id", .s challengeId),
       ("component_a_auth", .s componentAAuth),
       ("component_b_auth", .s componentBAuth),
       ("session_context", .s sessionContext)] }

/-- `RESTClient::completePairing` (RESTClient.cpp lines 494-519): build the
request, one `makeRequest`, parse the 200 body with `j.value` defaults. -/
def restCompletePairing (creator challengeId componentAAuth componentBAuth
    sessionContext : String) (http : NetRequest → TransportReply) :
    List NetRequest × CallOutcome PairingCompleteResult :=
  restCall
    (completePairingReq creator challengeId componentAAuth componentBAuth
      sessionContext)
    (fun fields =>
      { lctId := jStr fields "lct_id" ""
        sessionKeys := jStr fields "session_keys" ""
        trustSummary := jStr fields "trust_summary" ""
        txHash := jStr fields "tx_hash" ""
        splitKeyA := jStr fields "split_key_a" ""
        splitKeyB := jStr fields "split_key_b" "" })
    http

/-- The request `RESTClient::createTrustTensor` builds (RESTClient.cpp
lines 545-558): POST /trust/create; note the score goes straight into the
body, unvalidated. -/
def trustCreateReq (creator componentA componentB context : String)
    (initialScore : Rat) : NetRequest :=
  { method := "POST"
    endpoint := "/trust/create"
    bodyFields :=
      [("creator", .s creator),
       ("component_a", .s componentA),
       ("component_b", .s componentB),
       ("context", .s context),
       ("initial_score", .num initialScore)] }

/-- `RESTClient::createTrustTensor` (RESTClient.cpp lines 545-568): no
client-side validation of `initialScore`; build request, one
`makeRequest`, parse. -/
def restCreateTrustTensor (creator componentA componentB context : String)
    (initialScore : Rat) (http : NetRequest → TransportReply) :
    List NetRequest × CallOutcome TrustTensorResult :=
  restCall (trustCreateReq creator componentA componentB context initialScore)
    (fun fields =>
      { tensorId := jStr fields "tensor_id" ""
        score := jNum fields "score" 0
        status := jStr fields "status" ""
        txHash := jStr fields "tx_hash" "" })
    http

/-- The request `GRPCClient::createTrustTensor` builds (GRPCClient.cpp
lines 333-346): same body fields, posted to the gateway route for
APIBridgeService/CreateTrustTensor. -/
def grpcTrustCreateReq (creator componentA componentB context : String)
    (initialScore : Rat) : NetRequest :=
  { method := "POST"
    endpoint := "/APIBridgeService/CreateTrustTensor"
    bodyFields :=
      [("creator", .s creator),
       ("component_a", .s componentA),
       ("component_b", .s componentB),
       ("context", .s context),
       ("initial_score", .num initialScore)] }

/-- `GRPCClient::createTrustTensor` (GRPCClient.cpp lines 333-356): again
no validation of `initialScore` before the network call. -/
def grpcCreateTrustTensor (creator componentA componentB context : String)
    (initialScore : Rat) (http : NetRequest → TransportReply) :
    List NetRequest × CallOutcome TrustTensorResult :=
  grpcCall (grpcTrustCreateReq creator componentA componentB context initialScore)
    (fun fields =>
      { tensorId := jStr fields "tensor_id" ""
        score := jNum fields "score" 0
        status := jStr fields "status" ""
        txHash := jStr fields "tx_hash" "" })
    http

/-- C++ parameter types appearing in the two clients' public methods. -/
inductive PTy
  | str
  | boolean
  | dbl
  | int32
  | cbBattery
deriving DecidableEq

/-- Return types of the two clients' public methods, tagged by the struct
or scalar they name. The shared structs (`Account`,
`ComponentRegistrationResult`, `LCTResult`, `PairingInitiateResult`,
`PairingCompleteResult`, `TrustTensorResult`, `EnergyOperationResult`,
`BatteryStatusUpdate`) are declared field-for-field identically in
RESTClient.h and GRPCClient.h, so one tag per struct name is faithful. -/
inductive RTy
  | accountVec
  | account
  | compReg
  | anonComp
  | pairVerif
  | pairAuth
  | revocationEvent
  | compMeta
  | lct
  | pairInit
  | pairComplete
  | trust
  | energy
  | strT
  | dblT
  | unitT
  | boolT
  | pairReqVec
  | queueStat
  | pairReq
deriving DecidableEq

/-- One public method signature: name, parameter types in order, return
type. -/
structure OpSig where
  name : String
  params : List PTy
  ret : RTy
deriving DecidableEq

/-- The public method signatures of `RESTClient` (RESTClient.h
lines 156-283), in declaration order. -/
def restSigs : List OpSig :=
  [⟨"getAccounts", [], .accountVec⟩,
   ⟨"createAccount", [.str], .account⟩,
   ⟨"registerComponent", [.str, .str, .str], .compReg⟩,
   ⟨"getComponent", [.str], .compReg⟩,
   ⟨"getComponentIdentity", [.str], .compReg⟩,
   ⟨"verifyComponent", [.str, .str, .str], .compReg⟩,
   ⟨"registerAnonymousComponent", [.str, .str, .str, .str, .str], .anonComp⟩,
   ⟨"verifyComponentPairingWithHashes", [.str, .str, .str, .str], .pairVerif⟩,
   ⟨"createAnonymousPairingAuthorization", [.str, .str, .str, .str], .pairAuth⟩,
   ⟨"createAnonymousRevocationEvent", [.str, .str, .str, .str], .revocationEvent⟩,
   ⟨"getAnonymousComponentMetadata", [.str], .compMeta⟩,
   ⟨"createLCT", [.str, .str, .str, .str, .str], .lct⟩,
   ⟨"getLCT", [.str], .lct⟩,
   ⟨"updateLCTStatus", [.str, .str, .str, .str], .lct⟩,
   ⟨"initiatePairing", [.str, .str, .str, .str, .str, .boolean], .pairInit⟩,
   ⟨"completePairing", [.str, .str, .str, .str, .str], .pairComplete⟩,
   ⟨"revokePairing", [.str, .str, .str, .boolean], .strT⟩,
   ⟨"getPairingStatus", [.str], .strT⟩,
   ⟨"queuePairingRequest", [.str, .str, .str, .str], .pairReq⟩,
   ⟨"getQueueStatus", [.str], .queueStat⟩,
   ⟨"processOfflineQueue", [.str, .str, .str], .strT⟩,
   ⟨"cancelRequest", [.str, .str, .str], .strT⟩,
   ⟨"getQueuedRequests", [.str], .pairReqVec⟩,
   ⟨"listProxyQueue", [.str], .pairReqVec⟩,
   ⟨"createTrustTensor", [.str, .str, .str, .str, .dbl], .trust⟩,
   ⟨"getTrustTensor", [.str], .trust⟩,
   ⟨"updateTrustScore", [.str, .str, .dbl, .str], .trust⟩,
   ⟨"createEnergyOperation", [.str, .str, .str, .str, .dbl, .str], .energy⟩,
   ⟨"executeEnergyTransfer", [.str, .str, .dbl, .str], .energy⟩,
   ⟨"getEnergyBalance", [.str], .dblT⟩,
   ⟨"startWebSocket", [.str, .cbBattery], .unitT⟩,
   ⟨"stopWebSocket", [], .unitT⟩,
   ⟨"getHealthStatus", [], .strT⟩,
   ⟨"getBlockchainStatus", [], .strT⟩]

/-- The public method signatures of `GRPCClient` (GRPCClient.h
lines 94-190), in declaration order. -/
def grpcSigs : List OpSig :=
  [⟨"getAccounts", [], .accountVec⟩,
   ⟨"createAccount", [.str], .account⟩,
   ⟨"registerComponent", [.str, .str, .str], .compReg⟩,
   ⟨"getComponent", [.str], .compReg⟩,
   ⟨"getComponentIdentity", [.str], .compReg⟩,
   ⟨"verifyComponent", [.str, .str, .str], .compReg⟩,
   ⟨"createLCT", [.str, .str, .str, .str, .str], .lct⟩,
   ⟨"getLCT", [.str], .lct⟩,
   ⟨"updateLCTStatus", [.str, .str, .str, .str], .lct⟩,
   ⟨"initiatePairing", [.str, .str, .str, .str, .str, .boolean], .pairInit⟩,
   ⟨"completePairing", [.str, .str, .str, .str, .str], .pairComplete⟩,
   ⟨"revokePairing", [.str, .str, .str, .boolean], .strT⟩,
   ⟨"getPairingStatus", [.str], .strT⟩,
   ⟨"createTrustTensor", [.str, .str, .str, .str, .dbl], .trust⟩,
   ⟨"getTrustTensor", [.str], .trust⟩,
   ⟨"updateTrustScore", [.str, .str, .dbl, .str], .trust⟩,
   ⟨"createEnergyOperation", [.str, .str, .str, .str, .dbl, .str], .energy⟩,
   ⟨"executeEnergyTransfer", [.str, .str, .dbl, .str], .energy⟩,
   ⟨"getEnergyBalance", [.str], .dblT⟩,
   ⟨"streamBatteryStatus", [.str, .int32, .cbBattery], .unitT⟩,
   ⟨"stopStreaming", [], .unitT⟩,
   ⟨"isConnected", [], .boolT⟩]

/-- Look an operation up by name in a signature list. -/
def sigFor (sigs : List OpSig) (n : String) : Option OpSig :=
  sigs.find? (fun o => o.name == n)

/-- The operations claim C1 ranges over: component registration,
anonymous/privacy operations, LCT management, pairing
initiate/complete/revoke/status, the five pairing-queue operations, and
trust-tensor create/get/update. -/
def c1ClaimNames : List String :=
  ["registerComponent",
   "registerAnonymousComponent",
   "verifyComponentPairingWithHashes",
   "createAnonymousPairingAuthorization",
   "createAnonymousRevocationEvent",
   "getAnonymousComponentMetadata",
   "createLCT", "getLCT", "updateLCTStatus",
   "initiatePairing", "completePairing", "revokePairing", "getPairingStatus",
   "queuePairingRequest", "getQueueStatus", "getQueuedRequests",
   "listProxyQueue", "processOfflineQueue", "cancelRequest",
   "createTrustTensor", "getTrustTensor", "updateTrustScore"]

/-- Claim C1 as stated: every one of those operations is exposed by both
transport clients with an identical signature. -/
def c1Claim : Prop :=
  ∀ n ∈ c1ClaimNames, (sigFor restSigs n).isSome ∧ sigFor restSigs n = sigFor grpcSigs n

/-- The C1 operations both clients do expose. -/
def c1SharedNames : List String :=
  ["registerComponent", "createLCT", "getLCT", "updateLCTStatus",
   "initiatePairing", "completePairing", "revokePairing", "getPairingStatus",
   "createTrustTensor", "getTrustTensor", "updateTrustScore"]

/-- The C1 operations only `RESTClient` exposes. -/
def c1RestOnlyNames : List String :=
  ["registerAnonymousComponent",
   "verifyComponentPairingWithHashes",
   "createAnonymousPairingAuthorization",
   "createAnonymousRevocationEvent",
   "getAnonymousComponentMetadata",
   "queuePairingRequest", "getQueueStatus", "getQueuedRequests",
   "listProxyQueue", "processOfflineQueue", "cancelRequest"]

/-- The success value of an outcome, if any. -/
def outcomeOkValue {α : Type} : CallOutcome α → Option α
  | .ok v => some v
  | _ => none

/-- Whether an outcome is a raised exception. -/
def outcomeThrown {α : Type} : CallOutcome α → Bool
  | .thrown _ => true
  | _ => false

/-- Request-body keys and result-struct shape of one mutating REST
operation, transcribed from RESTClient.cpp: `requestKeys` are the JSON
keys the operation puts into its body, in construction order;
`resultHasStatus` / `resultHasTxHash` record whether the value it returns
to the caller carries a status and a transaction hash. -/
structure MutatingOpSpec where
  name : String
  requestKeys : List String
  resultHasStatus : Bool
  resultHasTxHash : Bool
deriving DecidableEq

/-- The mutating operations claim C5 enumerates, with their request keys
and result shapes as written in RESTClient.cpp. `revokePairing` returns
just the response's status string (so it does carry a status, but no
txHash); `processOfflineQueue` and `cancelRequest` return just the
response's `result` string. -/
def restMutatingOps : List MutatingOpSpec :=
  [⟨"createAccount", ["name"], false, false⟩,
   ⟨"registerComponent", ["creator", "component_data", "context"], true, true⟩,
   ⟨"createLCT",
     ["creator", "component_a", "component_b", "context", "proxy_id"],
     true, true⟩,
   ⟨"updateLCTStatus", ["creator", "lct_id", "status", "context"], true, true⟩,
   ⟨"initiatePairing",
     ["creator", "component_a", "component_b", "operational_context",
      "proxy_id", "force_immediate"],
     true, true⟩,
   ⟨"completePairing",
     ["creator", "challenge_id", "component_a_auth", "component_b_auth",
      "session_context"],
     false, true⟩,
   ⟨"revokePairing", ["creator", "lct_id", "reason", "notify_offline"],
     true, false⟩,
   ⟨"queuePairingRequest",
     ["creator", "component_a", "component_b", "context"], true, true⟩,
   ⟨"processOfflineQueue", ["processor", "queue_id", "context"], false, false⟩,
   ⟨"cancelRequest", ["creator", "request_id", "reason"], false, false⟩,
   ⟨"createTrustTensor",
     ["creator", "component_a", "component_b", "context", "initial_score"],
     true, true⟩,
   ⟨"updateTrustScore", ["creator", "tensor_id", "score", "context"],
     true, true⟩,
   ⟨"createEnergyOperation",
     ["creator", "component_a", "component_b", "operation_type", "amount",
      "context"],
     true, true⟩,
   ⟨"executeEnergyTransfer", ["creator", "operation_id", "amount", "context"],
     true, true⟩]

/-- Keys that serve as the operation's free-form context field. -/
def contextKeys : List String :=
  ["context", "operational_context", "session_context"]

/-- Claim C5 as stated: every mutating operation's request body carries a
creator key and a context key, and its result carries a status and a
txHash. -/
def c5Claim : Prop :=
  ∀ op ∈ restMutatingOps,
    "creator" ∈ op.requestKeys ∧
    (∃ k ∈ op.requestKeys, k ∈ contextKeys) ∧
    op.resultHasStatus = true ∧ op.resultHasTxHash = true

/-- Look a mutating operation up by name. -/
def mutOp (n : String) : Option MutatingOpSpec :=
  restMutatingOps.find? (fun o => o.name == n)

/-- The mutating operations that deviate from the C5 wire contract. -/
def c5Exceptions : List String :=
  ["createAccount", "completePairing", "revokePairing",
   "processOfflineQueue", "cancelRequest"]

/-- Claim C2 as stated: no client operation raises an exception as its
failure path (stated over the two `makeRequest` cores every operation
funnels through, and the two fully modelled operations). -/
def c2Claim : Prop :=
  (∀ reply e, restMakeRequest reply ≠ .thrown e) ∧
  (∀ reply e, grpcMakeRequest reply ≠ .thrown e)

/-- Claim C3 as stated: an out-of-range initial score is rejected as
`InvalidScore` before any network call, on both transports. -/
def c3Claim : Prop :=
  ∀ (creator a b ctx : String) (score : Rat) (http : NetRequest → TransportReply),
    (score < 0 ∨ 1 < score) →
      (restCreateTrustTensor creator a b ctx score http).1 = [] ∧
      (restCreateTrustTensor creator a b ctx score http).2 =
        .taggedError "InvalidScore" ∧
      (grpcCreateTrustTensor creator a b ctx score http).1 = [] ∧
      (grpcCreateTrustTensor creator a b ctx score http).2 =
        .taggedError "InvalidScore"

/-- `PairingRequest.status` domain (spec §3). -/
inductive ReqStatus
  | Queued
  | Processing
  | Completed
  | Cancelled
  | Failed
deriving DecidableEq

/-- `PairingChallenge.status` domain (spec §3). -/
inductive ChalStatus
  | Pending
  | AwaitingAuth
  | Completed
  | Revoked
  | Expired
deriving DecidableEq

/-- A queue entry as the spec's `PairingRequest` (§3). -/
structure SpecPairingRequest where
  requestId : String
  componentA : String
  componentB : String
  context : String
  status : ReqStatus
  creator : String
deriving DecidableEq

/-- An in-flight handshake as the spec's `PairingChallenge` (§3). -/
structure SpecPairingChallenge where
  challengeId : String
  componentA : String
  componentB : String
  operationalContext : String
  proxyId : String
  forceImmediate : Bool
  status : ChalStatus
deriving DecidableEq

/-- The two observably distinct results of `Initiate` (§4.2): a challenge,
or a queued request reference. -/
inductive InitiateOutcome
  | challenge (c : SpecPairingChallenge)
  | queued (r : SpecPairingRequest)
deriving DecidableEq

/-- Modelled from the spec: §4.2 `Initiate`. The liveness check and the
redirection into `PairingQueue.Enqueue` are implemented in the ledger
backend, which is not under src/ — the clients in src/ only forward the
request (`RESTClient::initiatePairing`, RESTClient.cpp lines 461-492) and
surface the backend's resulting status to the caller. Per the spec: if
`forceImmediate` is false and either component is unreachable according to
the liveness oracle, the request is enqueued with status `Queued` and a
fresh request id; otherwise a challenge is created in `Pending`. -/
def specInitiate (reachable : String → Bool)
    (freshChallengeId freshRequestId : String)
    (creator componentA componentB context proxyId : String)
    (forceImmediate : Bool) : InitiateOutcome :=
  if !forceImmediate && (!reachable componentA || !reachable componentB) then
    .queued
      { requestId := freshRequestId
        componentA := componentA
        componentB := componentB
        context := context
        status := .Queued
        creator := creator }
  else
    .challenge
      { challengeId := freshChallengeId
        componentA := componentA
        componentB := componentB
        operationalContext := context
        proxyId := proxyId
        forceImmediate := forceImmediate
        status := .Pending }

/-- Program counter of `GRPCClient::streamingWorker` (GRPCClient.cpp
lines 517-546): at the `while (streamingActive)` test, about to invoke the
callback, sleeping, or exited. -/
inductive WPC
  | check
  | emit
  | sleeping
  | done
deriving DecidableEq

/-- Program counter of the thread running `GRPCClient::stopStreaming`
(GRPCClient.cpp lines 474-479): not yet called, after
`streamingActive = false`, and after `join()` returned. -/
inductive SPC
  | idle
  | cleared
  | returned
deriving DecidableEq

/-- Shared state of the worker thread and the stopping thread:
the `std::atomic<bool> streamingActive` flag and both program counters. -/
structure StreamState where
  flag : Bool
  wpc : WPC
  spc : SPC
deriving DecidableEq

/-- State right after `streamBatteryStatus` spawned the worker. -/
def streamInit : StreamState := ⟨true, .check, .idle⟩

/-- Interleaved small-step semantics of the worker loop and
`stopStreaming`. The `Bool` label records whether the step invokes the
subscriber callback. `joinDone` is the completion of `join()`: it can fire
only once the worker has exited, which is exactly what joining a thread
waits for. -/
inductive StreamStep : StreamState → Bool → StreamState → Prop
  | checkContinue (s : SPC) :
      StreamStep ⟨true, .check, s⟩ false ⟨true, .emit, s⟩
  | checkExit (s : SPC) :
      StreamStep ⟨false, .check, s⟩ false ⟨false, .done, s⟩
  | emitUpdate (f : Bool) (s : SPC) :
      StreamStep ⟨f, .emit, s⟩ true ⟨f, .sleeping, s⟩
  | wake (f : Bool) (s : SPC) :
      StreamStep ⟨f, .sleeping, s⟩ false ⟨f, .check, s⟩
  | clearFlag (f : Bool) (w : WPC) :
      StreamStep ⟨f, w, .idle⟩ false ⟨false, w, .cleared⟩
  | joinDone (f : Bool) :
      StreamStep ⟨f, .done, .cleared⟩ false ⟨f, .done, .returned⟩

/-- Finite interleavings, collecting the step labels. -/
inductive STrace : StreamState → List Bool → StreamState → Prop
  | nil (s : StreamState) : STrace s [] s
  | cons {s s' s'' : StreamState} {e : Bool} {es : List Bool} :
      StreamStep s e s' → STrace s' es s'' → STrace s (e :: es) s''

/-- How many more callback invocations the worker can still perform once
the flag is down: one if it already passed the loop test, none
otherwise. -/
def emitBudget (s : StreamState) : Nat :=
  if s.wpc = .emit then 1 else 0

/-- Worker-thread lifecycle state of one `GRPCClient`:
the `streamingActive` flag and the number of running worker threads the
client owns. -/
structure GClientState where
  streamingActive : Bool
  liveWorkers : Nat
deriving DecidableEq

/-- State after the `GRPCClient` constructor (GRPCClient.cpp line 21):
`streamingActive(false)`, no worker thread. -/
def gInit : GClientState := ⟨false, 0⟩

/-- `GRPCClient::stopStreaming` (GRPCClient.cpp lines 474-479) at
operation granularity: clear the flag, join the worker if there is one
(the worker exits its loop because the flag is down, and `join` waits for
that), leaving no running worker. -/
def stopStreamingOp (_st : GClientState) : GClientState := ⟨false, 0⟩

/-- `GRPCClient::streamBatteryStatus` (GRPCClient.cpp lines 461-472): if a
stream is active, first stop and join it; then raise the flag and spawn
one new worker thread. -/
def streamBatteryStatusOp (st : GClientState) : GClientState :=
  let st1 := if st.streamingActive then stopStreamingOp st else st
  ⟨true, st1.liveWorkers + 1⟩

/-- `GRPCClient::~GRPCClient` (GRPCClient.cpp lines 29-31) just calls
`stopStreaming`. -/
def destructorOp (st : GClientState) : GClientState := stopStreamingOp st

/-- The operations that touch the streaming state. -/
inductive GOp
  | stream
  | stop
  | dtor
deriving DecidableEq

/-- Apply one operation. -/
def applyOp (st : GClientState) : GOp → GClientState
  | .stream => streamBatteryStatusOp st
  | .stop => stopStreamingOp st
  | .dtor => destructorOp st

/-- Run a sequence of operations from the constructed client. -/
def runOps (ops : List GOp) : GClientState :=
  ops.foldl applyOp gInit

/-- The C8 invariant: a worker thread runs exactly when `streamingActive`
is set — in particular never more than one worker. -/
def workerInv (st : GClientState) : Prop :=
  st.liveWorkers = if st.streamingActive then 1 else 0

/-- `isalnum` for a byte under the default C locale, as used by
`RESTClient::urlEncode` (RESTClient.cpp line 715). -/
def isAlnumByte (c : Nat) : Bool :=
  (48 ≤ c && c ≤ 57) || (65 ≤ c && c ≤ 90) || (97 ≤ c && c ≤ 122)

/-- The bytes `urlEncode` passes through unchanged: alphanumerics and
`-` (45), `_` (95), `.` (46), `~` (126). -/
def isUnreservedByte (c : Nat) : Bool :=
  isAlnumByte c || c == 45 || c == 95 || c == 46 || c == 126

/-- One lowercase hex digit as a byte (`std::hex` with `fill('0')`):
0-9 → '0'..'9' (48..57), 10-15 → 'a'..'f' (97..102). -/
def hexDigitByte (x : Nat) : Nat :=
  if x < 10 then 48 + x else 87 + x

/-- What `urlEncode` emits for one input byte: the byte itself if
unreserved, else `'%'` (37) followed by the two hex digits of its value
(`setw(2)` with fill `'0'` on a value < 256 always yields exactly two
digits). -/
def encodeByte (c : Fin 256) : List Nat :=
  if isUnreservedByte c.val then [c.val]
  else [37, hexDigitByte (c.val / 16), hexDigitByte (c.val % 16)]

/-- `RESTClient::urlEncode` (RESTClient.cpp lines 709-723) over the bytes
of the input string, producing the output string's bytes. -/
def urlEncode : List (Fin 256) → List Nat
  | [] => []
  | c :: rest => encodeByte c ++ urlEncode rest

/-- Value of a lowercase hex digit byte, used only to invert
`urlEncode`. -/
def hexVal (b : Nat) : Option Nat :=
  if 48 ≤ b ∧ b ≤ 57 then some (b - 48)
  else if 97 ≤ b ∧ b ≤ 102 then some (b - 87)
  else none

/-- A decoder for `urlEncode`'s output, used to establish injectivity:
`'%'` (37) always starts a three-byte token (and is itself never passed
through), any other byte must be an unreserved literal. -/
def decodeBytes : List Nat → Option (List (Fin 256))
  | [] => some []
  | 37 :: h :: l :: rest =>
      (hexVal h).bind fun hv =>
        (hexVal l).bind fun lv =>
          (decodeBytes rest).map fun tail =>
            (⟨(hv * 16 + lv) % 256, Nat.mod_lt _ (by decide)⟩ : Fin 256) :: tail
  | b :: rest =>
      if hb : b ≠ 37 ∧ b < 256 ∧ isUnreservedByte b then
        (decodeBytes rest).map fun tail => (⟨b, hb.2.1⟩ : Fin 256) :: tail
      else none

/-! ## Helper lemmas (shared) -/

/-- No branch of the REST per-operation body produces a returned tagged
error: the failure branches all throw. -/
theorem restCallOutcome_ne_taggedError {α : Type} (req : NetRequest)
    (parse : List (String × JValue) → α) (http : NetRequest → TransportReply)
    (m : String) : restCallOutcome req parse http ≠ .taggedError m := by
  unfold restCallOutcome
  cases h : http req with
  | failed e => simp
  | replied s b f => by_cases hs : s = 200 <;> simp [hs]

/-- Same for the gRPC per-operation body. -/
theorem grpcCallOutcome_ne_taggedError {α : Type} (req : NetRequest)
    (parse : List (String × JValue) → α) (http : NetRequest → TransportReply)
    (m : String) : grpcCallOutcome req parse http ≠ .taggedError m := by
  unfold grpcCallOutcome
  cases h : http req with
  | failed e => simp
  | replied s b f => by_cases hs : s = 200 <;> simp [hs]

/-! ## C2 — failure path -/

/-- C2 counterexample: both `makeRequest` cores raise an exception on a
failed or non-200 reply, so the claim that no operation uses a raised
exception as its failure path is false. -/
theorem failure_path_throws :
    restMakeRequest (.failed 7) = .thrown (.requestFailed 7) ∧
    grpcMakeRequest (.replied 500 "oops" []) = .thrown (.grpcError 500 "oops") ∧
    ¬ c2Claim := by
  refine ⟨rfl, by decide, fun h => h.1 (.failed 7) (.requestFailed 7) rfl⟩

/-- C2 amended: every modelled call ends in a normal return or a raised
exception; no call ever returns a caller-inspectable tagged error value —
the exception IS the failure path, on both transports. -/
theorem ops_return_or_throw :
    (∀ reply, ((∃ v, restMakeRequest reply = .ok v) ∨
        (∃ e, restMakeRequest reply = .thrown e)) ∧
      ∀ m, restMakeRequest reply ≠ .taggedError m) ∧
    (∀ reply, ((∃ v, grpcMakeRequest reply = .ok v) ∨
        (∃ e, grpcMakeRequest reply = .thrown e)) ∧
      ∀ m, grpcMakeRequest reply ≠ .taggedError m) ∧
    (∀ creator ch aa ba sc http m,
      (restCompletePairing creator ch aa ba sc http).2 ≠ .taggedError m) ∧
    (∀ creator a b ctx score http m,
      (restCreateTrustTensor creator a b ctx score http).2 ≠ .taggedError m) := by
  refine ⟨fun reply => ?_, fun reply => ?_,
    fun creator ch aa ba sc http m =>
      restCallOutcome_ne_taggedError _ _ http m,
    fun creator a b ctx score http m =>
      restCallOutcome_ne_taggedError _ _ http m⟩
  · cases reply with
    | failed e =>
        exact ⟨Or.inr ⟨.requestFailed e, rfl⟩,
          fun m h => by simp [restMakeRequest] at h⟩
    | replied s b f =>
        by_cases hs : s = 200
        · exact ⟨Or.inl ⟨b, by simp [restMakeRequest, hs]⟩,
            fun m h => by simp [restMakeRequest, hs] at h⟩
        · exact ⟨Or.inr ⟨.httpError s b, by simp [restMakeRequest, hs]⟩,
            fun m h => by simp [restMakeRequest, hs] at h⟩
  · cases reply with
    | failed e =>
        exact ⟨Or.inr ⟨.grpcRequestFailed e, rfl⟩,
          fun m h => by simp [grpcMakeRequest] at h⟩
    | replied s b f =>
        by_cases hs : s = 200
        · exact ⟨Or.inl ⟨b, by simp [grpcMakeRequest, hs]⟩,
            fun m h => by simp [grpcMakeRequest, hs] at h⟩
        · exact ⟨Or.inr ⟨.grpcError s b, by simp [grpcMakeRequest, hs]⟩,
            fun m h => by simp [grpcMakeRequest, hs] at h⟩

/-- C2 amended, instantiated: the REST core at a connection failure ends
in a throw, never a tagged error. -/
theorem ops_return_or_throw_witness :
    ((∃ v, restMakeRequest (.failed 7) = .ok v) ∨
      (∃ e, restMakeRequest (.failed 7) = .thrown e)) ∧
    restMakeRequest (.failed 7) ≠ .taggedError "x" :=
  ⟨(ops_return_or_throw.1 (.failed 7)).1,
   (ops_return_or_throw.1 (.failed 7)).2 "x"⟩

/-! ## C9 — status-200 discipline -/

/-- C9: a REST response is accepted (produces a result value) iff its
status is exactly 200; any other status, 201 included, is turned into a
thrown error carrying the status code and the response body, and a
connection failure into one carrying the error code. -/
theorem status_200_only :
    (∀ reply, (∃ v, restMakeRequest reply = .ok v) ↔
      ∃ b f, reply = .replied 200 b f) ∧
    (∀ b f, restMakeRequest (.replied 200 b f) = .ok b) ∧
    (∀ s b f, s ≠ 200 →
      restMakeRequest (.replied s b f) = .thrown (.httpError s b)) ∧
    (∀ e, restMakeRequest (.failed e) = .thrown (.requestFailed e)) := by
  refine ⟨fun reply => ?_, fun b f => rfl,
    fun s b f hs => by simp [restMakeRequest, hs], fun e => rfl⟩
  cases reply with
  | failed e => simp [restMakeRequest]
  | replied s b f =>
      by_cases hs : s = 200
      · subst hs
        simp [restMakeRequest]
      · simp [restMakeRequest, hs]

/-- C9 at status 201: not accepted, turned into the carrying error. -/
theorem status_200_only_witness :
    restMakeRequest (.replied 201 "Created" []) =
      .thrown (.httpError 201 "Created") :=
  status_200_only.2.2.1 201 "Created" [] (by decide)

/-! ## C3 — score validation -/

/-- C3 counterexample: with `initialScore = 2` (outside [0,1]) the REST
client still sends its one POST /trust/create request — there is no
client-side validation, so the claim is false. -/
theorem trust_create_sends_invalid_score :
    (1 < (2 : Rat)) ∧
    (restCreateTrustTensor "u" "a" "b" "ctx" 2 (fun _ => .failed 0)).1 =
      [trustCreateReq "u" "a" "b" "ctx" 2] ∧
    ¬ c3Claim := by
  refine ⟨by norm_num, rfl, fun h => ?_⟩
  have h1 := (h "u" "a" "b" "ctx" 2 (fun _ => .failed 0) (Or.inr (by norm_num))).1
  simp [restCreateTrustTensor, restCall] at h1

/-- C3 amended: `createTrustTensor` performs no client-side validation of
`initialScore`: for every score, in range or not, each transport client
issues exactly one backend request whose body carries the score under
`initial_score`, and the client never produces a tagged `InvalidScore`
(or any tagged) error. -/
theorem trust_create_no_validation :
    ∀ (creator a b ctx : String) (score : Rat)
      (http : NetRequest → TransportReply),
      (restCreateTrustTensor creator a b ctx score http).1 =
        [trustCreateReq creator a b ctx score] ∧
      ("initial_score", JValue.num score) ∈
        (trustCreateReq creator a b ctx score).bodyFields ∧
      (grpcCreateTrustTensor creator a b ctx score http).1 =
        [grpcTrustCreateReq creator a b ctx score] ∧
      ("initial_score", JValue.num score) ∈
        (grpcTrustCreateReq creator a b ctx score).bodyFields ∧
      (∀ m, (restCreateTrustTensor creator a b ctx score http).2 ≠
        .taggedError m) ∧
      (∀ m, (grpcCreateTrustTensor creator a b ctx score http).2 ≠
        .taggedError m) := by
  intro creator a b ctx score http
  refine ⟨rfl, by simp [trustCreateReq], rfl, by simp [grpcTrustCreateReq],
    fun m => restCallOutcome_ne_taggedError _ _ http m,
    fun m => grpcCallOutcome_ne_taggedError _ _ http m⟩

/-- C3 amended, instantiated at an out-of-range score. -/
theorem trust_create_no_validation_witness :
    (restCreateTrustTensor "u" "a" "b" "ctx" 2 (fun _ => .failed 0)).1 =
      [trustCreateReq "u" "a" "b" "ctx" 2] ∧
    ("initial_score", JValue.num 2) ∈
      (trustCreateReq "u" "a" "b" "ctx" 2).bodyFields :=
  ⟨(trust_create_no_validation "u" "a" "b" "ctx" 2 (fun _ => .failed 0)).1,
   (trust_create_no_validation "u" "a" "b" "ctx" 2 (fun _ => .failed 0)).2.1⟩

/-! ## C6 — completePairing: one request, failures surfaced -/

/-- C6: one call to the REST `completePairing` performs exactly one
backend request (the one it built — no internal retry of the
non-idempotent Complete), and a transport failure or non-200 reply is
surfaced to the caller as the corresponding thrown error, unmodified. -/
theorem complete_pairing_single_request :
    ∀ (creator ch aa ba sc : String) (http : NetRequest → TransportReply),
      (restCompletePairing creator ch aa ba sc http).1 =
        [completePairingReq creator ch aa ba sc] ∧
      (∀ e, http (completePairingReq creator ch aa ba sc) = .failed e →
        (restCompletePairing creator ch aa ba sc http).2 =
          .thrown (.requestFailed e)) ∧
      (∀ s b f, http (completePairingReq creator ch aa ba sc) = .replied s b f →
        s ≠ 200 →
        (restCompletePairing creator ch aa ba sc http).2 =
          .thrown (.httpError s b)) := by
  intro creator ch aa ba sc http
  refine ⟨rfl, ?_, ?_⟩
  · intro e he
    simp [restCompletePairing, restCall, restCallOutcome, he]
  · intro s b f hf hs
    simp [restCompletePairing, restCall, restCallOutcome, hf, hs]

/-- C6 instantiated: a concrete failing transport yields the one request
and the surfaced failure. -/
theorem complete_pairing_single_request_witness :
    (restCompletePairing "u" "ch" "a" "b" "s" (fun _ => .failed 3)).1 =
      [completePairingReq "u" "ch" "a" "b" "s"] ∧
    (restCompletePairing "u" "ch" "a" "b" "s" (fun _ => .failed 3)).2 =
      .thrown (.requestFailed 3) :=
  ⟨(complete_pairing_single_request "u" "ch" "a" "b" "s"
      (fun _ => .failed 3)).1,
   (complete_pairing_single_request "u" "ch" "a" "b" "s"
      (fun _ => .failed 3)).2.1 3 rfl⟩

/-! ## C1 — transport signature parity -/

/-- C1 counterexample: the pairing-queue enqueue operation (and, by the
same lookup, all queue and anonymous/privacy operations) exists in the
REST client but is absent from the gRPC client, so the claimed
operation-for-operation signature parity fails. -/
theorem queue_ops_missing_from_grpc :
    (sigFor restSigs "queuePairingRequest").isSome = true ∧
    sigFor grpcSigs "queuePairingRequest" = none ∧
    ¬ c1Claim := by
  refine ⟨by decide, by decide, fun h => ?_⟩
  have h1 := h "queuePairingRequest" (by decide)
  revert h1
  decide

/-- C1 amended: for the operations both clients expose — component
registration, LCT management, pairing initiate/complete/revoke/status,
trust-tensor create/get/update — the two transports declare identical
signatures (same name, parameter types and result type), and their
request cores have matching error semantics (same inputs succeed with the
same value, same inputs throw); but the anonymous/privacy operations and
all six pairing-queue operations are exposed only by the REST client. -/
theorem shared_ops_identical_sigs :
    (∀ n ∈ c1SharedNames,
      (sigFor restSigs n).isSome ∧ sigFor restSigs n = sigFor grpcSigs n) ∧
    (∀ n ∈ c1RestOnlyNames,
      (sigFor restSigs n).isSome ∧ sigFor grpcSigs n = none) ∧
    (∀ reply,
      outcomeOkValue (restMakeRequest reply) =
        outcomeOkValue (grpcMakeRequest reply) ∧
      outcomeThrown (restMakeRequest reply) =
        outcomeThrown (grpcMakeRequest reply)) := by
  refine ⟨by decide, by decide, fun reply => ?_⟩
  cases reply with
  | failed e => exact ⟨rfl, rfl⟩
  | replied s b f =>
      by_cases hs : s = 200 <;>
        simp [restMakeRequest, grpcMakeRequest, outcomeOkValue, outcomeThrown, hs]

/-- C1 amended, instantiated: a shared operation with equal signatures and
a REST-only operation with no gRPC counterpart. -/
theorem shared_ops_identical_sigs_witness :
    ((sigFor restSigs "createLCT").isSome ∧
      sigFor restSigs "createLCT" = sigFor grpcSigs "createLCT") ∧
    ((sigFor restSigs "queuePairingRequest").isSome ∧
      sigFor grpcSigs "queuePairingRequest" = none) :=
  ⟨shared_ops_identical_sigs.1 "createLCT" (by decide),
   shared_ops_identical_sigs.2.1 "queuePairingRequest" (by decide)⟩

/-! ## C5 — mutating-operation wire contract -/

/-- C5 counterexample: `createAccount` is a mutating operation whose
request body carries only `name` — no creator, no context — and whose
result (an `Account`) has neither a status nor a txHash field, so the
claimed uniform wire contract fails. -/
theorem create_account_lacks_creator :
    (⟨"createAccount", ["name"], false, false⟩ : MutatingOpSpec) ∈
      restMutatingOps ∧
    "creator" ∉ (["name"] : List String) ∧
    ¬ c5Claim := by
  refine ⟨by decide, by decide, fun h => ?_⟩
  have h1 := h ⟨"createAccount", ["name"], false, false⟩ (by decide)
  exact absurd h1.1 (by decide)

/-- C5 amended: every mutating operation other than `createAccount`,
`completePairing`, `revokePairing`, `processOfflineQueue` and
`cancelRequest` carries a `creator` key and a context key in its request
body and returns both a status and a txHash; the five exceptions deviate
exactly as recorded: `createAccount` sends only `name` and returns
neither; `completePairing`'s result has a txHash but no status field;
`revokePairing` omits the context key and returns only a status;
`processOfflineQueue` names the caller `processor` and returns only a
result string; `cancelRequest` omits the context key and returns only a
result string. -/
theorem mutating_ops_fields :
    (∀ op ∈ restMutatingOps, op.name ∉ c5Exceptions →
      ("creator" ∈ op.requestKeys ∧
       (∃ k ∈ op.requestKeys, k ∈ contextKeys) ∧
       op.resultHasStatus = true ∧ op.resultHasTxHash = true)) ∧
    mutOp "createAccount" = some ⟨"createAccount", ["name"], false, false⟩ ∧
    mutOp "completePairing" =
      some ⟨"completePairing",
        ["creator", "challenge_id", "component_a_auth", "component_b_auth",
         "session_context"], false, true⟩ ∧
    mutOp "revokePairing" =
      some ⟨"revokePairing", ["creator", "lct_id", "reason", "notify_offline"],
        true, false⟩ ∧
    mutOp "processOfflineQueue" =
      some ⟨"processOfflineQueue", ["processor", "queue_id", "context"],
        false, false⟩ ∧
    mutOp "cancelRequest" =
      some ⟨"cancelRequest", ["creator", "request_id", "reason"],
        false, false⟩ := by
  decide

/-- C5 amended, instantiated on `createLCT`. -/
theorem mutating_ops_fields_witness :
    "creator" ∈
      (["creator", "component_a", "component_b", "context", "proxy_id"] :
        List String) ∧
    (∃ k ∈ (["creator", "component_a", "component_b", "context", "proxy_id"] :
        List String), k ∈ contextKeys) ∧
    true = true ∧ true = true :=
  mutating_ops_fields.1
    ⟨"createLCT", ["creator", "component_a", "component_b", "context",
      "proxy_id"], true, true⟩
    (by decide) (by decide)

/-! ## C4 — queued-versus-immediate branching of Initiate -/

/-- C4: per the spec-modelled `Initiate`, calling with
`forceImmediate = false` when either component is unreachable returns a
`PairingRequest` with status `Queued`, and never a `PairingChallenge` —
the branching is observable through the distinct outcome constructors. -/
theorem initiate_unreachable_queued :
    ∀ (reachable : String → Bool)
      (cid rid creator a b ctx proxy : String),
      (reachable a = false ∨ reachable b = false) →
        (∃ r, specInitiate reachable cid rid creator a b ctx proxy false =
            .queued r ∧ r.status = .Queued) ∧
        (∀ c, specInitiate reachable cid rid creator a b ctx proxy false ≠
          .challenge c) := by
  intro reachable cid rid creator a b ctx proxy hab
  have hq : specInitiate reachable cid rid creator a b ctx proxy false =
      .queued
        { requestId := rid
          componentA := a
          componentB := b
          context := ctx
          status := .Queued
          creator := creator } := by
    rcases hab with ha | hb
    · simp [specInitiate, ha]
    · simp [specInitiate, hb]
  refine ⟨⟨_, hq, rfl⟩, fun c hc => ?_⟩
  rw [hq] at hc
  exact absurd hc (by simp)

/-- C4 instantiated on the spec's scenario: `motor-001` (the second
component) unreachable. -/
theorem initiate_unreachable_queued_witness :
    (∃ r, specInitiate (fun c => !(c == "motor-001")) "ch-1" "req-1"
        "u1" "battery-001" "motor-001" "ctx" "proxy-1" false =
        .queued r ∧ r.status = .Queued) ∧
    (∀ c, specInitiate (fun c => !(c == "motor-001")) "ch-1" "req-1"
      "u1" "battery-001" "motor-001" "ctx" "proxy-1" false ≠
      .challenge c) :=
  initiate_unreachable_queued (fun c => !(c == "motor-001")) "ch-1" "req-1"
    "u1" "battery-001" "motor-001" "ctx" "proxy-1" (Or.inr (by decide))

/-! ## C7 — streaming cancellation -/

/-- Once the worker has exited and `join()` has returned, the system is
stuck: no step at all, in particular no callback invocation. -/
theorem streamStep_stuck {f : Bool} {e : Bool} {s' : StreamState} :
    ¬ StreamStep ⟨f, .done, .returned⟩ e s' := by
  intro h
  cases h

/-- The invariant "stopStreaming returned → the worker has exited" is
carried along every trace. -/
theorem strace_inv {s s' : StreamState} {es : List Bool}
    (h : STrace s es s') (hI : s.spc = .returned → s.wpc = .done) :
    s'.spc = .returned → s'.wpc = .done := by
  induction h with
  | nil => exact hI
  | cons hstep _ ih =>
      apply ih
      cases hstep with
      | checkContinue sp => intro hr; exact absurd (hI hr) (by simp)
      | checkExit sp => intro _; rfl
      | emitUpdate fb sp => intro hr; exact absurd (hI hr) (by simp)
      | wake fb sp => intro hr; exact absurd (hI hr) (by simp)
      | clearFlag fb w => intro hr; exact absurd hr (by simp)
      | joinDone fb => intro _; rfl

/-- A trace out of the stuck state is empty. -/
theorem strace_from_stuck {f : Bool} {es : List Bool} {s' : StreamState}
    (h : STrace ⟨f, .done, .returned⟩ es s') : es = [] := by
  cases h with
  | nil => rfl
  | cons hstep _ => exact absurd hstep streamStep_stuck

/-- Once the flag is down it stays down, and each step pays any callback
invocation out of the remaining emit budget. -/
theorem streamStep_budget {s s' : StreamState} {e : Bool}
    (hf : s.flag = false) (h : StreamStep s e s') :
    s'.flag = false ∧ (cond e 1 0) + emitBudget s' ≤ emitBudget s := by
  cases h with
  | checkContinue sp => exact absurd hf (by simp)
  | checkExit sp => exact ⟨rfl, by simp [emitBudget]⟩
  | emitUpdate fb sp => exact ⟨hf, by simp [emitBudget]⟩
  | wake fb sp => exact ⟨hf, by simp [emitBudget]⟩
  | clearFlag fb w => exact ⟨rfl, by simp [emitBudget]⟩
  | joinDone fb => exact ⟨hf, by simp [emitBudget]⟩

/-- With the flag down, a whole trace performs at most `emitBudget` many
callback invocations. -/
theorem strace_budget {s s' : StreamState} {es : List Bool}
    (h : STrace s es s') (hf : s.flag = false) :
    es.count true ≤ emitBudget s := by
  induction h with
  | nil => exact Nat.zero_le _
  | cons hstep htail ih =>
      obtain ⟨hf', hb⟩ := streamStep_budget hf hstep
      have hc := ih hf'
      rename_i s0 s1 s2 e es0
      cases e with
      | true =>
          have : (true :: es0).count true = es0.count true + 1 := by simp
          rw [this]
          simp at hb
          omega
      | false =>
          have : (false :: es0).count true = es0.count true := by
            simp [List.count_cons]
          rw [this]
          simp at hb
          omega

/-- C7: in the interleaved model of `streamingWorker` and
`stopStreaming`, (a) after `stopStreaming` has returned no further step
invokes the callback — in fact the system takes no further step at all —
and (b) from the moment the flag is cleared, at most one further callback
invocation can occur (the producer stops within one scheduling tick). -/
theorem streaming_stop_no_emit :
    (∀ (es : List Bool) (s : StreamState) (es' : List Bool)
      (s' : StreamState),
      STrace streamInit es s → s.spc = .returned → STrace s es' s' →
      es'.count true = 0) ∧
    (∀ (s : StreamState) (es : List Bool) (s' : StreamState),
      s.flag = false → STrace s es s' → es.count true ≤ 1) := by
  constructor
  · intro es s es' s' h hr h'
    have hw : s.wpc = .done :=
      strace_inv h (fun hx => absurd hx (by decide)) hr
    obtain ⟨f, w, sp⟩ := s
    simp only at hw hr
    subst hw
    subst hr
    have he := strace_from_stuck h'
    subst he
    rfl
  · intro s es s' hf h
    have h1 := strace_budget h hf
    have h2 : emitBudget s ≤ 1 := by
      unfold emitBudget
      split <;> omega
    omega

/-- C7 instantiated: a concrete interleaving — clear the flag, the worker
observes it and exits, `join` returns — after which the trace is empty,
and from the cleared state no more than one emission. -/
theorem streaming_stop_no_emit_witness :
    ([] : List Bool).count true = 0 ∧ ([] : List Bool).count true ≤ 1 := by
  have t1 : STrace streamInit [false, false, false] ⟨false, .done, .returned⟩ :=
    .cons (.clearFlag true .check)
      (.cons (.checkExit .cleared)
        (.cons (.joinDone false) (.nil _)))
  exact ⟨streaming_stop_no_emit.1 [false, false, false]
      ⟨false, .done, .returned⟩ [] ⟨false, .done, .returned⟩ t1 rfl (.nil _),
    streaming_stop_no_emit.2 ⟨false, .done, .returned⟩ [] _ rfl (.nil _)⟩

/-! ## C8 — one worker per client -/

/-- C8: starting from the constructed client, every sequence of
`streamBatteryStatus` / `stopStreaming` / destructor operations preserves
the invariant "a worker thread runs exactly when `streamingActive` is
set", so at most one streaming worker is ever alive. -/
theorem single_streaming_worker :
    (∀ (st : GClientState) (op : GOp),
      workerInv st → workerInv (applyOp st op)) ∧
    (∀ ops : List GOp, workerInv (runOps ops)) ∧
    (∀ ops : List GOp, (runOps ops).liveWorkers ≤ 1) := by
  have hstep : ∀ (st : GClientState) (op : GOp),
      workerInv st → workerInv (applyOp st op) := by
    intro st op hinv
    cases op with
    | stream =>
        by_cases h : st.streamingActive <;>
          simp [applyOp, streamBatteryStatusOp, stopStreamingOp, workerInv,
            h] at hinv ⊢
        omega
    | stop => simp [applyOp, stopStreamingOp, workerInv]
    | dtor => simp [applyOp, destructorOp, stopStreamingOp, workerInv]
  have hrun : ∀ ops : List GOp, workerInv (runOps ops) := by
    have aux : ∀ (ops : List GOp) (st : GClientState),
        workerInv st → workerInv (ops.foldl applyOp st) := by
      intro ops
      induction ops with
      | nil => intro st hst; exact hst
      | cons op rest ih => intro st hst; exact ih _ (hstep st op hst)
    intro ops
    exact aux ops gInit rfl
  refine ⟨hstep, hrun, fun ops => ?_⟩
  have h1 := hrun ops
  unfold workerInv at h1
  rw [h1]
  split <;> omega

/-- C8 instantiated: `stopStreaming` from an active single-worker state
re-establishes the invariant. -/
theorem single_streaming_worker_witness :
    workerInv (applyOp ⟨true, 1⟩ GOp.stop) :=
  single_streaming_worker.1 ⟨true, 1⟩ GOp.stop rfl

/-! ## C10 — urlEncode -/

/-- The hex-digit emitter is inverted by `hexVal` on all 16 values. -/
theorem hexVal_hexDigitByte (x : Nat) (hx : x < 16) :
    hexVal (hexDigitByte x) = some x := by
  have h16 : ∀ y : Fin 16, hexVal (hexDigitByte y.val) = some y.val := by
    decide
  exact h16 ⟨x, hx⟩

/-- `'%'` (37) is never a passthrough byte. -/
theorem unreserved_ne_37 {b : Nat} (h : isUnreservedByte b = true) :
    b ≠ 37 := by
  intro hb
  rw [hb] at h
  exact absurd h (by decide)

/-- Decoding peels exactly one encoded byte off the front. -/
theorem decodeBytes_encodeByte (c : Fin 256) (rest : List Nat) :
    decodeBytes (encodeByte c ++ rest) =
      (decodeBytes rest).map (fun t => c :: t) := by
  by_cases h : isUnreservedByte c.val
  · have hne : c.val ≠ 37 := unreserved_ne_37 h
    rw [encodeByte, if_pos h]
    show decodeBytes (c.val :: rest) = _
    rw [decodeBytes]
    · rw [dif_pos ⟨hne, c.isLt, h⟩]
    all_goals
      intros
      simp_all
  · rw [encodeByte, if_neg h]
    show decodeBytes
        (37 :: hexDigitByte (c.val / 16) :: hexDigitByte (c.val % 16) :: rest) = _
    rw [decodeBytes]
    have hdiv : c.val / 16 < 16 := by omega
    have hmod : c.val % 16 < 16 := by omega
    rw [hexVal_hexDigitByte _ hdiv, hexVal_hexDigitByte _ hmod]
    simp only [Option.some_bind]
    have hval : (c.val / 16 * 16 + c.val % 16) % 256 = c.val := by omega
    congr 1
    funext t
    congr 1
    exact Fin.ext hval

/-- Round trip: the decoder is a left inverse of `urlEncode`. -/
theorem decodeBytes_urlEncode (s : List (Fin 256)) :
    decodeBytes (urlEncode s) = some s := by
  induction s with
  | nil => rfl
  | cons c rest ih =>
      rw [urlEncode, decodeBytes_encodeByte, ih]
      rfl

/-- C10: `urlEncode` passes alphanumeric bytes and `-` `_` `.` `~`
through unchanged, replaces every other byte by `'%'` followed by the two
hex digits of its value, and is injective: distinct byte strings never
encode to the same output. -/
theorem url_encode_injective :
    (∀ c : Fin 256, isUnreservedByte c.val = true → encodeByte c = [c.val]) ∧
    (∀ c : Fin 256, isUnreservedByte c.val = false →
      encodeByte c = [37, hexDigitByte (c.val / 16), hexDigitByte (c.val % 16)]) ∧
    Function.Injective urlEncode := by
  refine ⟨fun c h => by simp [encodeByte, h],
    fun c h => by simp [encodeByte, h], fun a b hab => ?_⟩
  have ha := decodeBytes_urlEncode a
  rw [hab, decodeBytes_urlEncode b] at ha
  exact (Option.some_inj.mp ha).symm

/-- C10 instantiated: `'a'` (97) passes through, `' '` (32) becomes
"%20" (37, 50, 48), and injectivity applied at a concrete input. -/
theorem url_encode_injective_witness :
    encodeByte ⟨97, by norm_num⟩ = [97] ∧
    encodeByte ⟨32, by norm_num⟩ = [37, 50, 48] ∧
    ([(⟨37, by norm_num⟩ : Fin 256)]) = [⟨37, by norm_num⟩] := by
  refine ⟨url_encode_injective.1 ⟨97, by norm_num⟩ (by decide), ?_,
    url_encode_injective.2.2 rfl⟩
  rw [url_encode_injective.2.1 ⟨32, by norm_num⟩ (by decide)]
  decide

end ACTBridge
